import Mathlib

/-!
Verification of the esp32-gpt realtime speech service family.

This file gives a shallow embedding of the realtime speech-to-speech
engine (`src/sts.cpp`), the text-to-speech request path (`src/tts.cpp`)
and the spec's tool-call bridge, and settles the frozen claims about
them.  Machine integers are modelled as `Nat` with explicit reduction
modulo `2 ^ 32` where the C code uses `uint32_t`; JSON parsing and
serialization are treated as capabilities, as the spec prescribes, so
inbound messages are modelled as already-parsed tagged records and
outbound frames as tagged records of the fields the code puts in them.
-/

namespace Esp32Gpt

/-! ## Framing codec: `GPTStsService::base64Encode` / `base64Decode`

The C code accumulates bits in a `uint32_t` `buffer`; we mirror that
with `Nat` arithmetic reduced modulo `U32`.  `buffer << 8 | byte` is
written `buffer * 256 + byte % 256` (the low 8 bits of the shifted
accumulator are zero, so the bitwise or is addition; `% 256` models the
`uint8_t` load), and `(buffer >> bits) & 0x3F` is `(buffer >>> bits) % 64`.
-/

/-- The modulus `2 ^ 32` of the `uint32_t` accumulators used by the codec. -/
def U32 : Nat := 4294967296

/-- The 64-character standard alphabet, `base64Chars` in `sts.cpp`. -/
def b64chars : List Char :=
  "ABCDEFGHIJKLMNOPQRSTUVWXYZabcdefghijklmnopqrstuvwxyz0123456789+/".data

/-- Character emitted for one 6-bit group: `base64Chars[v]` (the index is
always masked to `v < 64` at call sites, mirroring `& 0x3F`). -/
def encChar (v : Nat) : Char := b64chars.getD v 'A'

/-- Inner `while (bits >= 6)` loop of `base64Encode`: repeatedly take 6 bits
off the top of the accumulator and emit one alphabet character.  The loop
runs `bits / 6` times; `fuel` (instantiated with `bits` itself) bounds that
count so the recursion is structural.  Returns the emitted characters and
the remaining bit count. -/
def drainCharsAux (buffer : Nat) : Nat → Nat → List Char × Nat
  | bits, 0 => ([], bits)
  | bits, fuel + 1 =>
    if 6 ≤ bits then
      let bits' := bits - 6
      let c := encChar ((buffer >>> bits') % 64)
      let r := drainCharsAux buffer bits' fuel
      (c :: r.1, r.2)
    else ([], bits)

/-- Inner drain loop entry point (`fuel := bits` suffices since the loop
body removes 6 bits per iteration). -/
def drainChars (buffer bits : Nat) : List Char × Nat := drainCharsAux buffer bits bits

/-- Main `while (i < length || bits > 0)` loop of `base64Encode`, restricted
to the iterations that consume an input byte (`i < length`): push the byte
into the accumulator and drain full 6-bit groups.  Returns the emitted
characters together with the final accumulator and bit count. -/
def encodeCore : List Nat → Nat → Nat → List Char × Nat × Nat
  | [], buffer, bits => ([], buffer, bits)
  | b :: rest, buffer, bits =>
    let buffer' := (buffer * 256 + b % 256) % U32
    let d := drainChars buffer' (bits + 8)
    let r := encodeCore rest buffer' d.2
    (d.1 ++ r.1, r.2.1, r.2.2)

/-- Remaining iterations of the same loop once the input is exhausted
(`i == length`, `bits > 0`): the code pushes zero bytes (`buffer <<= 8`)
until the drained bit count reaches 0.  Starting from `bits = 0` the loop
head invariant gives `bits ∈ {0, 2, 4}` here, so at most two zero-byte
pushes occur; the unreachable other values also stop after two pushes. -/
def encodeTail (buffer bits : Nat) : List Char :=
  if bits = 0 then []
  else
    let buf1 := buffer * 256 % U32
    let d1 := drainChars buf1 (bits + 8)
    if d1.2 = 0 then d1.1
    else
      let buf2 := buf1 * 256 % U32
      let d2 := drainChars buf2 (d1.2 + 8)
      d1.1 ++ d2.1

/-- Trailing `while (encoded.length() % 4 != 0) encoded += '='` padding loop
of `base64Encode`, in closed form. -/
def padEq (cs : List Char) : List Char :=
  cs ++ List.replicate ((4 - cs.length % 4) % 4) '='

/-- Character sequence produced by `GPTStsService::base64Encode`. -/
def base64EncodeChars (data : List Nat) : List Char :=
  let r := encodeCore data 0 0
  padEq (r.1 ++ encodeTail r.2.1 r.2.2)

/-- `GPTStsService::base64Encode`: bytes to base64 text. -/
def base64Encode (data : List Nat) : String := String.mk (base64EncodeChars data)

/-- The 256-entry decoding table `base64Index` from `sts.cpp`. -/
def base64IndexTable : List Int := [
  -1,-1,-1,-1,-1,-1,-1,-1,-1,-1,-1,-1,-1,-1,-1,-1,
  -1,-1,-1,-1,-1,-1,-1,-1,-1,-1,-1,-1,-1,-1,-1,-1,
  -1,-1,-1,-1,-1,-1,-1,-1,-1,-1,-1,62,-1,-1,-1,63,
  52,53,54,55,56,57,58,59,60,61,-1,-1,-1,-1,-1,-1,
  -1, 0, 1, 2, 3, 4, 5, 6, 7, 8, 9,10,11,12,13,14,
  15,16,17,18,19,20,21,22,23,24,25,-1,-1,-1,-1,-1,
  -1,26,27,28,29,30,31,32,33,34,35,36,37,38,39,40,
  41,42,43,44,45,46,47,48,49,50,51,-1,-1,-1,-1,-1,
  -1,-1,-1,-1,-1,-1,-1,-1,-1,-1,-1,-1,-1,-1,-1,-1,
  -1,-1,-1,-1,-1,-1,-1,-1,-1,-1,-1,-1,-1,-1,-1,-1,
  -1,-1,-1,-1,-1,-1,-1,-1,-1,-1,-1,-1,-1,-1,-1,-1,
  -1,-1,-1,-1,-1,-1,-1,-1,-1,-1,-1,-1,-1,-1,-1,-1,
  -1,-1,-1,-1,-1,-1,-1,-1,-1,-1,-1,-1,-1,-1,-1,-1,
  -1,-1,-1,-1,-1,-1,-1,-1,-1,-1,-1,-1,-1,-1,-1,-1,
  -1,-1,-1,-1,-1,-1,-1,-1,-1,-1,-1,-1,-1,-1,-1,-1,
  -1,-1,-1,-1,-1,-1,-1,-1,-1,-1,-1,-1,-1,-1,-1,-1]

/-- Table lookup `base64Index[(unsigned char)c]`. -/
def b64Index (c : Char) : Int := base64IndexTable.getD c.toNat (-1)

/-- The `for` loop of `base64Decode`: stop at the first `'='`, skip
characters outside the alphabet (`value == -1`), otherwise shift 6 bits in
and emit a byte whenever 8 bits are available. -/
def decodeLoop : List Char → Nat → Nat → List Nat
  | [], _, _ => []
  | c :: rest, buffer, bits =>
    if c = '=' then []
    else
      let value := b64Index c
      if value = -1 then decodeLoop rest buffer bits
      else
        let buffer' := (buffer * 64 + value.toNat) % U32
        let bits' := bits + 6
        if 8 ≤ bits' then
          ((buffer' >>> (bits' - 8)) % 256) :: decodeLoop rest buffer' (bits' - 8)
        else
          decodeLoop rest buffer' bits'

/-- `GPTStsService::base64Decode`: base64 text to bytes. -/
def base64Decode (s : String) : List Nat := decodeLoop s.data 0 0

/-- Accumulator update for one alphabet character in `decodeLoop`
(`buffer = (buffer << 6) | value` on `uint32_t`), named for use in the
lemmas below. -/
def dstep (dbuf v : Nat) : Nat := (dbuf * 64 + v) % U32


/-! ## Realtime streaming engine: `GPTStsService::streamingTask`

The WebSocket transport is the capability the spec assumes: inbound
traffic is a list of `WsEvent`s (a text frame arrives already split into
parse failure or a parsed `type`/`delta` record, since JSON parsing is an
assumed capability), and `sendTXT` is modelled by recording the outbound
`Frame`.  The task-local variables `sessionCreated`/`wsConnected` and the
members `_isGPTSpeaking`/`_isStreaming`/callback registrations form the
state threaded through the loop.
-/

/-- Outbound frames written with `sendTXT`, tagged by their `type` field and
carrying the payload fields the code puts in them. -/
inductive Frame where
  | sessionUpdate
  | inputAudioAppend (audio : String)
  | inputAudioCommit
  | responseCreate
  | conversationItemCreate (callId output : String)
  deriving DecidableEq

/-- Result of parsing one inbound text frame: either `deserializeJson`
failed, or it yielded a message whose `type` and `delta` fields are the
ones the handler reads (`doc["type"] | ""`, `doc["delta"] | ""`). -/
inductive WsText where
  | malformed
  | msg (typeTag delta : String)
  deriving DecidableEq

/-- One inbound WebSocket event (`WStype_t`). -/
inductive WsEvent where
  | connected
  | text (m : WsText)
  | bin
  | wsError
  | fragmentEvt
  | ping
  | pong
  | disconnected
  deriving DecidableEq

/-- One `_audioResponseCallback` invocation: `some data` for a decoded
audio chunk, `none` for the `(nullptr, 0, true)` end-of-response signal. -/
inductive CbOut where
  | audioResponse (data : Option (List Nat)) (isLast : Bool)
  deriving DecidableEq

/-- State read and written by the streaming event handler: the task-local
`sessionCreated` flag plus the members `_isGPTSpeaking`, `_isStreaming`
and the registration status of the two callbacks. -/
structure PumpState where
  sessionCreated : Bool
  isGPTSpeaking : Bool
  isStreaming : Bool
  hasFillCallback : Bool
  hasResponseCallback : Bool
  deriving DecidableEq

/-- The `WStype_TEXT` dispatch of the `streamingTask` handler: an
if/else-if chain on the message `type` string, in source order.  Branches
that only log leave the state unchanged and produce no callback. -/
def handleTextMsg (s : PumpState) (t d : String) : PumpState × List CbOut :=
  if t = "session.created" then
    ({ s with sessionCreated := true }, [])
  else if t = "response.audio.delta" ∧ s.sessionCreated = true then
    (s, if s.hasResponseCallback = true then
      [CbOut.audioResponse (some (base64Decode d)) false] else [])
  else if t = "response.output_audio.delta" ∧ s.sessionCreated = true then
    (s, if s.hasResponseCallback = true then
      [CbOut.audioResponse (some (base64Decode d)) false] else [])
  else if t = "response.text.delta" ∧ s.sessionCreated = true then (s, [])
  else if t = "response.output_audio_transcript.delta" ∧ s.sessionCreated = true then (s, [])
  else if t = "response.created" ∧ s.sessionCreated = true then
    ({ s with isGPTSpeaking := true }, [])
  else if t = "response.output_item.added" ∧ s.sessionCreated = true then (s, [])
  else if t = "response.output_item.done" ∧ s.sessionCreated = true then (s, [])
  else if t = "response.content_part.added" ∧ s.sessionCreated = true then (s, [])
  else if t = "response.done" ∧ s.sessionCreated = true then
    ({ s with isGPTSpeaking := false },
      if s.hasResponseCallback = true then [CbOut.audioResponse none true] else [])
  else if t = "conversation.item.added" then (s, [])
  else if t = "conversation.item.done" then (s, [])
  else if t = "input_audio_buffer.committed" then (s, [])
  else if t = "error" then (s, [])
  else if t = "input_audio_buffer.speech_started" then (s, [])
  else if t = "input_audio_buffer.speech_stopped" then (s, [])
  else if t = "response.output_audio.done" ∧ s.sessionCreated = true then (s, [])
  else if t = "response.output_audio_transcript.done" ∧ s.sessionCreated = true then (s, [])
  else if t = "response.content_part.done" ∧ s.sessionCreated = true then (s, [])
  else if t = "rate_limits.updated" then (s, [])
  else (s, [])

/-- The `onEvent` handler installed by `streamingTask` (one `WStype_t`
switch case per constructor). -/
def handleStreamEvent (s : PumpState) (e : WsEvent) : PumpState × List CbOut :=
  match e with
  | .connected => ({ s with sessionCreated := false }, [])
  | .text .malformed => (s, [])
  | .text (.msg t d) => handleTextMsg s t d
  | .bin => (s, [])
  | .wsError => ({ s with isStreaming := false }, [])
  | .fragmentEvt => (s, [])
  | .ping => (s, [])
  | .pong => (s, [])
  | .disconnected => ({ s with sessionCreated := false, isGPTSpeaking := false }, [])

/-- Events delivered by one `gptWebSocket->loop()` call, handled in order. -/
def processEvents (s : PumpState) : List WsEvent → PumpState × List CbOut
  | [] => (s, [])
  | e :: es =>
    ((processEvents (handleStreamEvent s e).1 es).1,
     (handleStreamEvent s e).2 ++ (processEvents (handleStreamEvent s e).1 es).2)

/-- State of the main streaming loop: the handler state plus the loop-local
`wsConnected` flag (initialised `true` and refreshed from `isConnected()`
at each poll). -/
structure LoopState where
  pump : PumpState
  wsConnected : Bool
  deriving DecidableEq

/-- Environment of one loop iteration: whether the 10 ms poll interval has
elapsed, the events `loop()` delivers if so, the `isConnected()` value
sampled after it, and the bytes `_audioFillCallback` writes into the
1536-byte buffer (`fillBytes.length` is the returned `bytesRead`). -/
structure IterInput where
  pollDue : Bool
  events : List WsEvent
  connNow : Bool
  fillBytes : List Nat
  deriving DecidableEq

/-- Poll step of one iteration (`loop()` then `wsConnected = isConnected()`),
guarded by the 10 ms interval check. -/
def pollPhase (s : LoopState) (inp : IterInput) : LoopState × List CbOut :=
  if inp.pollDue = true then
    ({ pump := (processEvents s.pump inp.events).1, wsConnected := inp.connNow },
     (processEvents s.pump inp.events).2)
  else (s, [])

/-- Literal head of the `input_audio_buffer.append` message string. -/
def auMsgHead : String := "\x7b\"type\":\"input_audio_buffer.append\",\"audio\":\""

/-- Literal tail of the `input_audio_buffer.append` message string. -/
def auMsgTail : String := "\"\x7d"

/-- Audio-send step of one iteration: gated on `wsConnected && sessionCreated
&& !_isGPTSpeaking && _audioFillCallback`, it pulls one chunk, and if
`bytesRead > 0` builds the append message and sends it when nonempty. -/
def sendPhase (s : LoopState) (fillBytes : List Nat) : List Frame :=
  if s.wsConnected = true ∧ s.pump.sessionCreated = true ∧ s.pump.isGPTSpeaking = false
      ∧ s.pump.hasFillCallback = true then
    if 0 < fillBytes.length then
      if 0 < (auMsgHead ++ base64Encode fillBytes ++ auMsgTail).length then
        [Frame.inputAudioAppend (base64Encode fillBytes)]
      else []
    else []
  else []

/-- One iteration of the `while (_isStreaming)` loop: poll, then send. -/
def loopIter (s : LoopState) (inp : IterInput) : LoopState × List Frame × List CbOut :=
  ((pollPhase s inp).1, sendPhase (pollPhase s inp).1 inp.fillBytes, (pollPhase s inp).2)

/-- The main streaming loop over a list of iteration environments; consuming
stops when `_isStreaming` is observed false at the loop head. -/
def loopRun : LoopState → List IterInput → List Frame × List CbOut
  | _, [] => ([], [])
  | s, inp :: rest =>
    if s.pump.isStreaming = true then
      ((loopIter s inp).2.1 ++ (loopRun (loopIter s inp).1 rest).1,
       (loopIter s inp).2.2 ++ (loopRun (loopIter s inp).1 rest).2)
    else ([], [])

/-- Whole `streamingTask` body: reset the task-local `sessionCreated`,
initiate the connection, send the session-configuration frame, then run the
loop with `wsConnected` initialised `true`. -/
def streamingTaskRun (s0 : PumpState) (inputs : List IterInput) : List Frame × List CbOut :=
  ((Frame.sessionUpdate
      :: (loopRun { pump := { s0 with sessionCreated := false }, wsConnected := true } inputs).1),
   (loopRun { pump := { s0 with sessionCreated := false }, wsConnected := true } inputs).2)

/-- Whether an inbound event is a parsed `session.created` message. -/
def isSessionCreatedEvt : WsEvent → Bool
  | .text (.msg t _) => t == "session.created"
  | _ => false

/-- Whether any iteration of a run carries a `session.created` event. -/
def receivedSessionCreated (inputs : List IterInput) : Bool :=
  inputs.any (fun inp => inp.events.any isSessionCreatedEvt)

/-! ## Service facade: `GPTStsService` members, `start`, `speechToSpeechStream` -/

/-- The `GPTStsService` member fields that the facade paths read or write
(`std::function` callbacks are modelled by their registration status). -/
structure StsService where
  apiKey : String
  model : String
  voice : String
  initialized : Bool
  isStreaming : Bool
  isGPTSpeaking : Bool
  hasFillCallback : Bool
  hasResponseCallback : Bool
  deriving DecidableEq

/-- `GPTStsService::start`: returns the `bool` result, the service state
after the call, and whether the streaming task was created (the WebSocket
connection is only opened inside that task, so `false` here also means no
connection was initiated). -/
def start (s : StsService) (wifiConnected fillCb respCb : Bool) :
    Bool × StsService × Bool :=
  if s.initialized = false then (false, s, false)
  else if s.isStreaming = true then (true, s, false)
  else if wifiConnected = false then (false, s, false)
  else
    (true,
     { s with hasFillCallback := fillCb, hasResponseCallback := respCb, isStreaming := true },
     true)

/-- One `StreamCallback` invocation of `speechToSpeechStream`
(`chunk = none` models a `nullptr` data pointer). -/
structure StreamCbCall where
  path : String
  chunk : Option (List Nat)
  chunkSize : Nat
  isLastChunk : Bool
  deriving DecidableEq

/-- `GPTStsService::speechToSpeechStream`: the synchronous guard section.
Returns the callback invocations made before returning and whether the
`STS_Streaming` task was created (all network traffic happens inside it). -/
def speechToSpeechStream (s : StsService) (filePath : String)
    (wifiConnected fileExists : Bool) : List StreamCbCall × Bool :=
  if s.initialized = false then ([⟨filePath, none, 0, true⟩], false)
  else if wifiConnected = false then ([⟨filePath, none, 0, true⟩], false)
  else if fileExists = false then ([⟨filePath, none, 0, true⟩], false)
  else ([], true)

/-! ## TTS request path: `GPTTtsService::performTtsRequest` -/

/-- The `GPTTtsService` member fields. -/
structure TtsState where
  model : String
  voice : String
  apiKey : String
  initialized : Bool
  deriving DecidableEq

/-- The JSON document built by `GPTTtsService::buildJsonPayload`
(serialization is an assumed capability, so the payload is kept as the
record of fields the code sets). -/
structure TtsPayload where
  model : String
  input : String
  voice : String
  instructions : String
  deriving DecidableEq

/-- The fixed `instructions` string of `buildJsonPayload`. -/
def ttsInstructions : String :=
  "Speak softly with warmth, like a small robot chatting with a close friend late in the afternoon. The tone is relaxed, caring, and familiar. Use gentle pauses and light conversational fillers, naturally."

/-- `GPTTtsService::buildJsonPayload`: reads `_model`, the text and `_voice`. -/
def buildJsonPayload (s : TtsState) (text : String) : TtsPayload :=
  { model := s.model, input := text, voice := s.voice, instructions := ttsInstructions }

/-- Outcome of `performTtsRequest` as observable at its return: the member
state, the texts passed to the synchronously-invoked failure callback, the
streaming mode, whether the HTTP task was spawned, and the payload it got. -/
structure TtsResult where
  state : TtsState
  errorCalls : List String
  streamingMode : Bool
  taskCreated : Bool
  payload : Option TtsPayload
  deriving DecidableEq

/-- `GPTTtsService::performTtsRequest`: guards, then the voice swap around
`buildJsonPayload` (`_voice` is set to the per-call voice, the payload is
built, and `_voice` is restored before the task is spawned). -/
def performTtsRequest (s : TtsState) (text voice : String)
    (wifiConnected isStreaming : Bool) : TtsResult :=
  if s.initialized = false then
    { state := s, errorCalls := [text], streamingMode := isStreaming,
      taskCreated := false, payload := none }
  else if wifiConnected = false then
    { state := s, errorCalls := [text], streamingMode := isStreaming,
      taskCreated := false, payload := none }
  else if text.length = 0 then
    { state := s, errorCalls := [text], streamingMode := isStreaming,
      taskCreated := false, payload := none }
  else
    let originalVoice := s.voice
    let s1 := { s with voice := voice }
    let payload := buildJsonPayload s1 text
    let s2 := { s1 with voice := originalVoice }
    { state := s2, errorCalls := [], streamingMode := isStreaming,
      taskCreated := true, payload := some payload }

/-- `GPTTtsService::textToSpeech` with an explicit per-call voice. -/
def textToSpeech (s : TtsState) (text voice : String) (wifiConnected : Bool) : TtsResult :=
  performTtsRequest s text voice wifiConnected false

/-- `GPTTtsService::textToSpeechStream` with an explicit per-call voice. -/
def textToSpeechStream (s : TtsState) (text voice : String) (wifiConnected : Bool) : TtsResult :=
  performTtsRequest s text voice wifiConnected true

/-! ## Tool-call bridge (not present in `src/`; modelled from the spec) -/

/-- Modelled from the spec: a `PendingToolCall` record (spec section 3),
created from a `response.function_call_arguments.done` event; the bridge
code itself is absent from `src/`. -/
structure PendingToolCall where
  callId : String
  name : String
  arguments : String
  deriving DecidableEq

/-- Modelled from the spec: the `ToolBridgeError` raised for a stale or
duplicate call-id submission (spec section 7). -/
inductive ToolBridgeError where
  | staleOrDuplicateCallId
  deriving DecidableEq

/-- Modelled from the spec: the Tool-Call Bridge state, the set of pending
calls keyed by call identifier (spec section 4.5); absent from `src/`. -/
structure ToolBridge where
  pending : List PendingToolCall
  deriving DecidableEq

/-- Whether some pending call matches `callId`. -/
def hasPendingCall (br : ToolBridge) (callId : String) : Bool :=
  br.pending.any (fun p => p.callId == callId)

/-- Modelled from the spec: `submitToolResult` (spec section 4.5): reject a
submission whose `callId` matches no pending call; otherwise send the
`conversation.item.create` and `response.create` frames and clear the
pending record.  Absent from `src/`. -/
def submitToolResult (br : ToolBridge) (callId output : String) :
    Except ToolBridgeError (ToolBridge × List Frame) :=
  if hasPendingCall br callId = true then
    .ok (⟨br.pending.filter (fun p => p.callId != callId)⟩,
         [Frame.conversationItemCreate callId output, Frame.responseCreate])
  else
    .error ToolBridgeError.staleOrDuplicateCallId


lemma drainChars_8 (buffer : Nat) :
    drainChars buffer 8 = ([encChar ((buffer >>> 2) % 64)], 2) := rfl

lemma drainChars_10 (buffer : Nat) :
    drainChars buffer 10 = ([encChar ((buffer >>> 4) % 64)], 4) := rfl

lemma drainChars_12 (buffer : Nat) :
    drainChars buffer 12 = ([encChar ((buffer >>> 6) % 64), encChar (buffer % 64)], 0) := rfl

lemma encChar_spec : ∀ v : Fin 64, encChar v.1 ≠ '=' ∧ b64Index (encChar v.1) = (v.1 : Int) := by decide


lemma encChar_ne_eq {v : Nat} (h : v < 64) : encChar v ≠ '=' := (encChar_spec ⟨v, h⟩).1

lemma b64Index_encChar {v : Nat} (h : v < 64) : b64Index (encChar v) = (v : Int) := (encChar_spec ⟨v, h⟩).2

lemma natCast_ne_negOne (v : Nat) : ((v : Int) = -1) = False := by simp

lemma decodeLoop_four (v0 v1 v2 v3 : Nat) (cs : List Char) (dbuf : Nat)
    (h0 : v0 < 64) (h1 : v1 < 64) (h2 : v2 < 64) (h3 : v3 < 64) :
    decodeLoop (encChar v0 :: encChar v1 :: encChar v2 :: encChar v3 :: cs) dbuf 0 =
      (dstep (dstep dbuf v0) v1) >>> 4 % 256 ::
      (dstep (dstep (dstep dbuf v0) v1) v2) >>> 2 % 256 ::
      (dstep (dstep (dstep (dstep dbuf v0) v1) v2) v3) % 256 ::
      decodeLoop cs (dstep (dstep (dstep (dstep dbuf v0) v1) v2) v3) 0 := by
  simp only [decodeLoop, dstep, if_neg (encChar_ne_eq h0), if_neg (encChar_ne_eq h1),
    if_neg (encChar_ne_eq h2), if_neg (encChar_ne_eq h3),
    b64Index_encChar h0, b64Index_encChar h1, b64Index_encChar h2, b64Index_encChar h3,
    natCast_ne_negOne, if_false, Int.toNat_natCast, Nat.reduceAdd, Nat.reduceLeDiff,
    Nat.reduceSub, if_true]
  norm_num

theorem roundtrip_core : ∀ (data : List Nat), (∀ x ∈ data, x < 256) → data.length % 3 = 0 →
    ∀ buf dbuf, decodeLoop (encodeCore data buf 0).1 dbuf 0 = data
  | [], _, _, buf, dbuf => by simp [encodeCore, decodeLoop]
  | [a], _, h3, buf, dbuf => by simp at h3
  | [a, b], _, h3, buf, dbuf => by simp at h3
  | a :: b :: c :: rest, hd, h3, buf, dbuf => by
    have ha : a < 256 := hd a (by simp)
    have hb : b < 256 := hd b (by simp)
    have hc : c < 256 := hd c (by simp)
    simp only [encodeCore, Nat.reduceAdd, drainChars_8, drainChars_10, drainChars_12,
      List.cons_append, List.nil_append]
    rw [decodeLoop_four _ _ _ _ _ _ (Nat.mod_lt _ (by norm_num)) (Nat.mod_lt _ (by norm_num))
      (Nat.mod_lt _ (by norm_num)) (Nat.mod_lt _ (by norm_num))]
    simp only [List.cons.injEq]
    refine ⟨?_, ?_, ?_, ?_⟩
    · simp only [dstep, Nat.shiftRight_eq_div_pow, U32, Nat.reducePow]; omega
    · simp only [dstep, Nat.shiftRight_eq_div_pow, U32, Nat.reducePow]; omega
    · simp only [dstep, Nat.shiftRight_eq_div_pow, U32, Nat.reducePow]; omega
    · exact roundtrip_core rest (fun x hx => hd x (by simp [hx])) (by simp only [List.length_cons] at h3; omega) _ _
termination_by data => data.length


theorem encodeCore_bits : ∀ (data : List Nat) (buf : Nat),
    (encodeCore data buf 0).2.2 = 2 * (data.length % 3)
  | [], buf => by simp [encodeCore]
  | [a], buf => by simp [encodeCore, drainChars_8]
  | [a, b], buf => by simp [encodeCore, drainChars_8, drainChars_10]
  | a :: b :: c :: rest, buf => by
    simp only [encodeCore, Nat.reduceAdd, drainChars_8, drainChars_10, drainChars_12]
    rw [encodeCore_bits rest]
    simp only [List.length_cons]
    omega
termination_by data => data.length

theorem encodeCore_len : ∀ (data : List Nat), data.length % 3 = 0 →
    ∀ buf, (encodeCore data buf 0).1.length % 4 = 0
  | [], _, buf => by simp [encodeCore]
  | [a], h3, buf => by simp at h3
  | [a, b], h3, buf => by simp at h3
  | a :: b :: c :: rest, h3, buf => by
    simp only [encodeCore, Nat.reduceAdd, drainChars_8, drainChars_10, drainChars_12,
      List.cons_append, List.nil_append, List.length_cons]
    have := encodeCore_len rest (by simp only [List.length_cons] at h3; omega)
      ((((buf * 256 + a % 256) % U32 * 256 + b % 256) % U32 * 256 + c % 256) % U32)
    omega
termination_by data => data.length

theorem encodeCore_append (xs ys : List Nat) : ∀ (buf bits : Nat),
    encodeCore (xs ++ ys) buf bits =
      ((encodeCore xs buf bits).1 ++
        (encodeCore ys (encodeCore xs buf bits).2.1 (encodeCore xs buf bits).2.2).1,
       (encodeCore ys (encodeCore xs buf bits).2.1 (encodeCore xs buf bits).2.2).2.1,
       (encodeCore ys (encodeCore xs buf bits).2.1 (encodeCore xs buf bits).2.2).2.2) := by
  induction xs with
  | nil => intro buf bits; simp [encodeCore]
  | cons a rest ih =>
    intro buf bits
    simp only [List.cons_append, encodeCore, List.append_eq, ih, List.append_assoc]

lemma encodeTail_zero (buf : Nat) : encodeTail buf 0 = [] := rfl

lemma encodeTail_two (buf : Nat) :
    encodeTail buf 2 = (encodeCore [0, 0] buf 2).1 ∧ (encodeCore [0, 0] buf 2).2.2 = 0 := by
  constructor <;>
    simp [encodeTail, encodeCore, drainChars_10, drainChars_12]

lemma encodeTail_four (buf : Nat) :
    encodeTail buf 4 = (encodeCore [0] buf 4).1 ∧ (encodeCore [0] buf 4).2.2 = 0 := by
  constructor <;>
    simp [encodeTail, encodeCore, drainChars_12]


lemma base64Decode_mk (cs : List Char) : base64Decode (String.mk cs) = decodeLoop cs 0 0 := rfl

/-- The encoder output equals the core loop run on the input zero-padded to a
multiple of three bytes, with the trailing equals-padding loop a no-op. -/
theorem encodeChars_eq_core_padded (data : List Nat) :
    base64EncodeChars data =
      (encodeCore (data ++ List.replicate ((3 - data.length % 3) % 3) 0) 0 0).1 := by
  have hb := encodeCore_bits data 0
  have h3 : data.length % 3 = 0 ∨ data.length % 3 = 1 ∨ data.length % 3 = 2 := by omega
  have hpad : ∀ (xs : List Nat), xs.length % 3 = 0 →
      padEq ((encodeCore xs 0 0).1) = (encodeCore xs 0 0).1 := by
    intro xs hx
    have := encodeCore_len xs hx 0
    simp [padEq, this]
  have hunfold : base64EncodeChars data
      = padEq ((encodeCore data 0 0).1
          ++ encodeTail (encodeCore data 0 0).2.1 (encodeCore data 0 0).2.2) := rfl
  rcases h3 with h3 | h3 | h3
  · rw [h3] at hb
    norm_num at hb
    have hk : (3 - data.length % 3) % 3 = 0 := by omega
    rw [hk, show (List.replicate 0 0 : List Nat) = [] from rfl, List.append_nil,
      hunfold, hb, encodeTail_zero, List.append_nil]
    exact hpad data h3
  · rw [h3] at hb
    norm_num at hb
    have hk : (3 - data.length % 3) % 3 = 2 := by omega
    have hlen2 : (data ++ [0, 0]).length % 3 = 0 := by
      simp [List.length_append]; omega
    have happ : (encodeCore (data ++ [0, 0]) 0 0).1
        = (encodeCore data 0 0).1
          ++ (encodeCore [0, 0] (encodeCore data 0 0).2.1 2).1 := by
      rw [encodeCore_append, hb]
    rw [hk, show (List.replicate 2 0 : List Nat) = [0, 0] from rfl,
      hunfold, hb, (encodeTail_two _).1, ← happ]
    exact hpad _ hlen2
  · rw [h3] at hb
    norm_num at hb
    have hk : (3 - data.length % 3) % 3 = 1 := by omega
    have hlen2 : (data ++ [0]).length % 3 = 0 := by
      simp [List.length_append]; omega
    have happ : (encodeCore (data ++ [0]) 0 0).1
        = (encodeCore data 0 0).1
          ++ (encodeCore [0] (encodeCore data 0 0).2.1 4).1 := by
      rw [encodeCore_append, hb]
    rw [hk, show (List.replicate 1 0 : List Nat) = [0] from rfl,
      hunfold, hb, (encodeTail_four _).1, ← happ]
    exact hpad _ hlen2

/-- C2 amended: for every byte sequence, decode-of-encode returns the input
right-padded with zero bytes to a multiple of three; in particular the
round-trip is exact precisely when the length is a multiple of three.  The
encoder fills the last group with zero bits (`'A'` characters) instead of
`=` padding (its `=`-padding loop is dead code), so the decoder cannot
tell the filler from data and emits the extra zero bytes. -/
theorem c2_roundtrip_zeropad (data : List Nat) (hd : ∀ x ∈ data, x < 256) :
    base64Decode (base64Encode data) =
      data ++ List.replicate ((3 - data.length % 3) % 3) 0 := by
  have hlen : (data ++ List.replicate ((3 - data.length % 3) % 3) 0).length % 3 = 0 := by
    simp [List.length_append]
    omega
  have hbytes : ∀ x ∈ data ++ List.replicate ((3 - data.length % 3) % 3) 0, x < 256 := by
    intro x hx
    rcases List.mem_append.1 hx with h | h
    · exact hd x h
    · rw [List.eq_of_mem_replicate h]; omega
  rw [show base64Encode data = String.mk (base64EncodeChars data) from rfl, base64Decode_mk,
    encodeChars_eq_core_padded]
  exact roundtrip_core _ hbytes hlen 0 0


lemma encChar_mem {v : Nat} (h : v < 64) : encChar v ∈ b64chars := by
  have : ∀ w : Fin 64, encChar w.1 ∈ b64chars := by decide
  exact this ⟨v, h⟩

lemma drainCharsAux_mem : ∀ (fuel bits buffer : Nat) (c : Char),
    c ∈ (drainCharsAux buffer bits fuel).1 → c ∈ b64chars
  | 0, bits, buffer, c => by simp [drainCharsAux]
  | fuel + 1, bits, buffer, c => by
    simp only [drainCharsAux]
    split
    · intro hc
      rcases List.mem_cons.1 hc with h | h
      · rw [h]; exact encChar_mem (Nat.mod_lt _ (by norm_num))
      · exact drainCharsAux_mem fuel _ buffer c h
    · simp

lemma drainChars_mem (buffer bits : Nat) (c : Char) :
    c ∈ (drainChars buffer bits).1 → c ∈ b64chars :=
  drainCharsAux_mem bits bits buffer c

lemma encodeCore_mem : ∀ (data : List Nat) (buf bits : Nat) (c : Char),
    c ∈ (encodeCore data buf bits).1 → c ∈ b64chars
  | [], buf, bits, c => by simp [encodeCore]
  | b :: rest, buf, bits, c => by
    simp only [encodeCore, List.mem_append]
    rintro (h | h)
    · exact drainChars_mem _ _ c h
    · exact encodeCore_mem rest _ _ c h

lemma encodeTail_mem (buf bits : Nat) (c : Char) :
    c ∈ encodeTail buf bits → c ∈ b64chars := by
  simp only [encodeTail]
  split
  · simp
  · split
    · exact drainChars_mem _ _ c
    · intro hc
      rcases List.mem_append.1 hc with h | h
      · exact drainChars_mem _ _ c h
      · exact drainChars_mem _ _ c h

lemma padEq_mem (cs : List Char) (c : Char) (h : c ∈ padEq cs) : c ∈ cs ∨ c = '=' := by
  rcases List.mem_append.1 h with h | h
  · exact Or.inl h
  · exact Or.inr (List.eq_of_mem_replicate h)

lemma encodeChars_mem (data : List Nat) (c : Char) (h : c ∈ base64EncodeChars data) :
    c ∈ b64chars ∨ c = '=' := by
  rcases padEq_mem _ c h with h | h
  · rcases List.mem_append.1 h with h | h
    · exact Or.inl (encodeCore_mem data 0 0 c h)
    · exact Or.inl (encodeTail_mem _ _ c h)
  · exact Or.inr h

lemma padEq_len (cs : List Char) : (padEq cs).length % 4 = 0 := by
  simp only [padEq, List.length_append, List.length_replicate]
  omega

lemma base64Encode_len (data : List Nat) : (base64Encode data).length % 4 = 0 := by
  rw [show (base64Encode data).length = (base64EncodeChars data).length from rfl]
  exact padEq_len _

lemma handleTextMsg_sc_of_ne (s : PumpState) (t d : String) (h : ¬ t = "session.created") :
    (handleTextMsg s t d).1.sessionCreated = s.sessionCreated := by
  unfold handleTextMsg
  rw [if_neg h]
  simp only [apply_ite Prod.fst, apply_ite PumpState.sessionCreated, ite_self]

lemma handleStreamEvent_sc (s : PumpState) (e : WsEvent)
    (he : isSessionCreatedEvt e = false) (hs : s.sessionCreated = false) :
    (handleStreamEvent s e).1.sessionCreated = false := by
  cases e with
  | text m =>
    cases m with
    | malformed => exact hs
    | msg t d =>
      simp only [isSessionCreatedEvt, beq_eq_false_iff_ne, ne_eq] at he
      rw [show handleStreamEvent s (.text (.msg t d)) = handleTextMsg s t d from rfl,
        handleTextMsg_sc_of_ne s t d he]
      exact hs
  | connected => rfl
  | bin => exact hs
  | wsError => exact hs
  | fragmentEvt => exact hs
  | ping => exact hs
  | pong => exact hs
  | disconnected => rfl

lemma processEvents_sc (es : List WsEvent) : ∀ (s : PumpState),
    es.any isSessionCreatedEvt = false → s.sessionCreated = false →
    (processEvents s es).1.sessionCreated = false := by
  induction es with
  | nil => intro s _ hs; exact hs
  | cons e es ih =>
    intro s ha hs
    simp only [List.any_cons, Bool.or_eq_false_iff] at ha
    exact ih _ (by simp [ha.2]) (handleStreamEvent_sc s e ha.1 hs)

lemma sendPhase_not_sc (s : LoopState) (fb : List Nat)
    (h : s.pump.sessionCreated = false) : sendPhase s fb = [] := by
  simp [sendPhase, h]

lemma sendPhase_mem (s : LoopState) (fb : List Nat) (f : Frame)
    (h : f ∈ sendPhase s fb) : f = Frame.inputAudioAppend (base64Encode fb) := by
  unfold sendPhase at h
  split at h
  · split at h
    · split at h
      · simpa using h
      · simp at h
    · simp at h
  · simp at h

lemma loopRun_frames_audio (inputs : List IterInput) : ∀ (s : LoopState) (f : Frame),
    f ∈ (loopRun s inputs).1 → ∃ a, f = Frame.inputAudioAppend a := by
  induction inputs with
  | nil => intro s f h; simp [loopRun] at h
  | cons inp rest ih =>
    intro s f h
    unfold loopRun at h
    split at h
    · rcases List.mem_append.1 h with h | h
      · exact ⟨_, sendPhase_mem _ _ f h⟩
      · exact ih _ f h
    · simp at h

lemma loopRun_no_audio (inputs : List IterInput) : ∀ (s : LoopState),
    (inputs.any (fun inp => inp.events.any isSessionCreatedEvt)) = false →
    s.pump.sessionCreated = false →
    ∀ a, Frame.inputAudioAppend a ∉ (loopRun s inputs).1 := by
  induction inputs with
  | nil => intro s _ _ a h; simp [loopRun] at h
  | cons inp rest ih =>
    intro s ha hs a h
    simp only [List.any_cons, Bool.or_eq_false_iff] at ha
    have hpoll : (pollPhase s inp).1.pump.sessionCreated = false := by
      unfold pollPhase
      split
      · exact processEvents_sc inp.events s.pump ha.1 hs
      · exact hs
    unfold loopRun at h
    split at h
    · rcases List.mem_append.1 h with h | h
      · rw [show (loopIter s inp).2.1 = sendPhase (pollPhase s inp).1 inp.fillBytes from rfl,
          sendPhase_not_sc _ _ hpoll] at h
        simp at h
      · exact ih (loopIter s inp).1 (by simp [ha.2]) hpoll a h
    · simp at h


lemma sendPhase_nil (s : LoopState) : sendPhase s [] = [] := by
  unfold sendPhase
  split <;> simp

/-! ## Claims -/

/-- C1: the streaming loop sends an `input_audio_buffer.append` frame only
when the `wsConnected` flag is set, `sessionCreated` has been observed and
`_isGPTSpeaking` is false (first conjunct: any audio frame emitted by an
iteration implies all three gates held after that iteration's poll); in
particular a run that never receives a `session.created` event sends no
audio at all (second conjunct), so no audio precedes the active session. -/
theorem c1_streaming_audio_gate :
    (∀ (s : LoopState) (inp : IterInput) (a : String),
        Frame.inputAudioAppend a ∈ (loopIter s inp).2.1 →
        (pollPhase s inp).1.wsConnected = true ∧
        (pollPhase s inp).1.pump.sessionCreated = true ∧
        (pollPhase s inp).1.pump.isGPTSpeaking = false) ∧
    (∀ (s0 : PumpState) (inputs : List IterInput) (a : String),
        receivedSessionCreated inputs = false →
        Frame.inputAudioAppend a ∉
          (loopRun { pump := { s0 with sessionCreated := false },
                     wsConnected := true } inputs).1) := by
  constructor
  · intro s inp a h
    rw [show (loopIter s inp).2.1 = sendPhase (pollPhase s inp).1 inp.fillBytes from rfl] at h
    unfold sendPhase at h
    by_cases hc : ((pollPhase s inp).1.wsConnected = true ∧
        (pollPhase s inp).1.pump.sessionCreated = true ∧
        (pollPhase s inp).1.pump.isGPTSpeaking = false ∧
        (pollPhase s inp).1.pump.hasFillCallback = true)
    · exact ⟨hc.1, hc.2.1, hc.2.2.1⟩
    · rw [if_neg hc] at h
      simp at h
  · intro s0 inputs a hrec
    exact loopRun_no_audio inputs _ hrec rfl a

/-- C1 witness: a connected, session-created, non-speaking iteration with a
nonempty audio chunk does send a frame, and the gate conclusion holds there;
the empty run without `session.created` sends nothing. -/
theorem c1_streaming_audio_gate_witness :
    ((pollPhase ⟨⟨true, false, true, true, true⟩, true⟩ ⟨false, [], true, [0]⟩).1.wsConnected = true ∧
     (pollPhase ⟨⟨true, false, true, true, true⟩, true⟩ ⟨false, [], true, [0]⟩).1.pump.sessionCreated = true ∧
     (pollPhase ⟨⟨true, false, true, true, true⟩, true⟩ ⟨false, [], true, [0]⟩).1.pump.isGPTSpeaking = false) ∧
    Frame.inputAudioAppend "" ∉
      (loopRun { pump := { (⟨false, false, true, true, true⟩ : PumpState) with sessionCreated := false },
                 wsConnected := true } []).1 :=
  ⟨c1_streaming_audio_gate.1 ⟨⟨true, false, true, true, true⟩, true⟩ ⟨false, [], true, [0]⟩
      (base64Encode [0]) (by decide),
   c1_streaming_audio_gate.2 ⟨false, false, true, true, true⟩ [] "" (by decide)⟩

/-- C2 counterexample: the claim `base64Decode (base64Encode b) = b` fails at
the one-byte input `[0]`: the encoder zero-fills to `"AAAA"` instead of
emitting `=` padding (its padding loop is dead code), so decoding yields two
extra zero bytes. -/
theorem c2_roundtrip_cex :
    base64Decode (base64Encode [0]) = [0, 0, 0] ∧
    base64Decode (base64Encode [0]) ≠ [0] := by decide

/-- C2 witness: the amended statement evaluated at `[1, 2]`. -/
theorem c2_roundtrip_zeropad_witness :
    base64Decode (base64Encode [1, 2]) =
      [1, 2] ++ List.replicate ((3 - [1, 2].length % 3) % 3) 0 :=
  c2_roundtrip_zeropad [1, 2] (by decide)

/-- C3 counterexample: in a run that receives no events at all (so no
`session.created` was ever received), the `session.update` configuration
frame is nevertheless in the outbound trace, refuting "only after a
`session.created` event has been received". -/
theorem c3_config_before_created_cex :
    Frame.sessionUpdate ∈ (streamingTaskRun ⟨false, false, true, true, true⟩ []).1 ∧
    receivedSessionCreated [] = false := by decide

/-- C3 amended: `streamingTask` sends the `session.update` configuration
frame exactly once per session, as the very first outbound frame,
immediately after initiating the connection and before any inbound event
(including `session.created`) is processed. -/
theorem c3_config_exactly_once (s0 : PumpState) (inputs : List IterInput) :
    ((streamingTaskRun s0 inputs).1).count Frame.sessionUpdate = 1 ∧
    ((streamingTaskRun s0 inputs).1).head? = some Frame.sessionUpdate := by
  have hne : Frame.sessionUpdate ∉
      (loopRun { pump := { s0 with sessionCreated := false }, wsConnected := true } inputs).1 := by
    intro h
    rcases loopRun_frames_audio inputs _ _ h with ⟨a, ha⟩
    exact Frame.noConfusion ha
  constructor
  · rw [show (streamingTaskRun s0 inputs).1 = Frame.sessionUpdate ::
        (loopRun { pump := { s0 with sessionCreated := false },
                   wsConnected := true } inputs).1 from rfl]
    simp [List.count_cons, List.count_eq_zero_of_not_mem hne]
  · rfl

/-- C4 counterexample: `start` on an initialized service that is already
streaming returns `true` (success), not failure as the claim requires. -/
theorem c4_start_already_active_cex :
    (⟨"key", "gpt-realtime-mini", "shimmer", true, true, false, false, false⟩ :
      StsService).isStreaming = true ∧
    (start ⟨"key", "gpt-realtime-mini", "shimmer", true, true, false, false, false⟩
      true true true).1 = true := by decide

/-- C4 amended: `start` returns failure without touching the state or
creating the streaming task when the service is not initialized, and when
it is initialized, idle, but has no network; when it is already streaming
it returns success without creating a second task or a connection. -/
theorem c4_start_failfast (s : StsService) (w f r : Bool) :
    (s.initialized = false → start s w f r = (false, s, false)) ∧
    (s.initialized = true → s.isStreaming = true → start s w f r = (true, s, false)) ∧
    (s.initialized = true → s.isStreaming = false → w = false →
      start s w f r = (false, s, false)) := by
  refine ⟨fun h => by simp [start, h], fun h1 h2 => by simp [start, h1, h2],
    fun h1 h2 h3 => by simp [start, h1, h2, h3]⟩

/-- C4 witness: the three branches evaluated on concrete services. -/
theorem c4_start_failfast_witness :
    start ⟨"", "m", "v", false, false, false, false, false⟩ true true true
      = (false, ⟨"", "m", "v", false, false, false, false, false⟩, false) ∧
    start ⟨"k", "m", "v", true, true, false, false, false⟩ true true true
      = (true, ⟨"k", "m", "v", true, true, false, false, false⟩, false) ∧
    start ⟨"k", "m", "v", true, false, false, false, false⟩ false true true
      = (false, ⟨"k", "m", "v", true, false, false, false, false⟩, false) :=
  ⟨(c4_start_failfast ⟨"", "m", "v", false, false, false, false, false⟩ true true true).1 rfl,
   (c4_start_failfast ⟨"k", "m", "v", true, true, false, false, false⟩ true true true).2.1 rfl rfl,
   (c4_start_failfast ⟨"k", "m", "v", true, false, false, false, false⟩ false true true).2.2 rfl rfl rfl⟩

/-- C5: with the session created, a `response.created` message sets
`_isGPTSpeaking` and invokes no callback, and a following `response.done`
message clears it and invokes the audio-out consumer exactly once with the
end-of-response signal (`nullptr`, `isLastChunk = true`). -/
theorem c5_response_turn_toggle (s : PumpState) (d d' : String)
    (hsc : s.sessionCreated = true) (hcb : s.hasResponseCallback = true) :
    handleStreamEvent s (.text (.msg "response.created" d))
      = ({ s with isGPTSpeaking := true }, []) ∧
    handleStreamEvent (handleStreamEvent s (.text (.msg "response.created" d))).1
        (.text (.msg "response.done" d'))
      = ({ s with isGPTSpeaking := false }, [CbOut.audioResponse none true]) := by
  have e1 : handleStreamEvent s (.text (.msg "response.created" d))
      = ({ s with isGPTSpeaking := true }, []) := by
    show handleTextMsg s "response.created" d = _
    simp [handleTextMsg, hsc]
  refine ⟨e1, ?_⟩
  rw [e1]
  show handleTextMsg { s with isGPTSpeaking := true } "response.done" d' = _
  simp [handleTextMsg, hsc, hcb]

/-- C5 witness: the toggle evaluated on a concrete active session state. -/
theorem c5_response_turn_toggle_witness :
    handleStreamEvent ⟨true, false, true, true, true⟩ (.text (.msg "response.created" ""))
      = (⟨true, true, true, true, true⟩, []) ∧
    handleStreamEvent
        (handleStreamEvent ⟨true, false, true, true, true⟩ (.text (.msg "response.created" ""))).1
        (.text (.msg "response.done" ""))
      = (⟨true, false, true, true, true⟩, [CbOut.audioResponse none true]) :=
  c5_response_turn_toggle ⟨true, false, true, true, true⟩ "" "" rfl rfl

/-- C6: a tool-result submission whose call identifier matches no pending
call is rejected with `ToolBridgeError`; one with a matching pending call
succeeds, sends the `conversation.item.create` and `response.create`
frames, clears the record, and a second submission with the same
identifier then fails.  (Modelled from the spec; the bridge is absent from
`src/`.) -/
theorem c6_submit_tool_result_once (br : ToolBridge) (id out out₂ : String) :
    (hasPendingCall br id = false →
      submitToolResult br id out = .error ToolBridgeError.staleOrDuplicateCallId) ∧
    (hasPendingCall br id = true →
      submitToolResult br id out =
        .ok (⟨br.pending.filter (fun p => p.callId != id)⟩,
             [Frame.conversationItemCreate id out, Frame.responseCreate]) ∧
      submitToolResult ⟨br.pending.filter (fun p => p.callId != id)⟩ id out₂ =
        .error ToolBridgeError.staleOrDuplicateCallId) := by
  constructor
  · intro h
    simp [submitToolResult, h]
  · intro h
    refine ⟨by simp [submitToolResult, h], ?_⟩
    have hf : hasPendingCall ⟨br.pending.filter (fun p => p.callId != id)⟩ id = false := by
      simp [hasPendingCall, List.any_eq_false]
    simp [submitToolResult, hf]

/-- C6 witness: with one pending call `"abc"`, submitting `"abc"` succeeds
once and again fails, and submitting the unknown `"zzz"` fails. -/
theorem c6_submit_tool_result_once_witness :
    submitToolResult ⟨[⟨"abc", "lookup", "x"⟩]⟩ "abc" "42" =
      .ok (⟨[]⟩, [Frame.conversationItemCreate "abc" "42", Frame.responseCreate]) ∧
    submitToolResult ⟨[]⟩ "abc" "43" = .error ToolBridgeError.staleOrDuplicateCallId ∧
    submitToolResult ⟨[⟨"abc", "lookup", "x"⟩]⟩ "zzz" "x" =
      .error ToolBridgeError.staleOrDuplicateCallId :=
  ⟨((c6_submit_tool_result_once ⟨[⟨"abc", "lookup", "x"⟩]⟩ "abc" "42" "43").2 (by decide)).1,
   ((c6_submit_tool_result_once ⟨[⟨"abc", "lookup", "x"⟩]⟩ "abc" "42" "43").2 (by decide)).2,
   (c6_submit_tool_result_once ⟨[⟨"abc", "lookup", "x"⟩]⟩ "zzz" "x" "y").1 (by decide)⟩

/-- C7: a text message that fails to parse leaves the handler state exactly
unchanged (so `sessionCreated`, `_isGPTSpeaking` and `_isStreaming` keep
their values) and invokes no callback; and a loop iteration that delivers
only such a message sends no frame and the run continues exactly as
without it. -/
theorem c7_malformed_message_noop :
    (∀ s : PumpState, handleStreamEvent s (.text .malformed) = (s, [])) ∧
    (∀ (ls : LoopState) (rest : List IterInput),
      loopRun ls (⟨true, [.text .malformed], ls.wsConnected, []⟩ :: rest) = loopRun ls rest) := by
  constructor
  · intro s
    rfl
  · intro ls rest
    have hstop : ∀ (s : LoopState) (ins : List IterInput), s.pump.isStreaming = false →
        loopRun s ins = ([], []) := by
      intro s ins hs
      cases ins with
      | nil => rfl
      | cons i ins => simp [loopRun, hs]
    by_cases hstr : ls.pump.isStreaming = true
    · have hpoll : pollPhase ls ⟨true, [.text .malformed], ls.wsConnected, []⟩ = (ls, []) := rfl
      have hiter : loopIter ls ⟨true, [.text .malformed], ls.wsConnected, []⟩
          = (ls, [], []) := by
        show ((pollPhase ls ⟨true, [.text .malformed], ls.wsConnected, []⟩).1,
          sendPhase (pollPhase ls ⟨true, [.text .malformed], ls.wsConnected, []⟩).1
            (⟨true, [.text .malformed], ls.wsConnected, []⟩ : IterInput).fillBytes,
          (pollPhase ls ⟨true, [.text .malformed], ls.wsConnected, []⟩).2) = (ls, [], [])
        rw [hpoll]
        show (ls, sendPhase ls [], []) = (ls, [], [])
        rw [sendPhase_nil]
      rw [show loopRun ls (⟨true, [.text .malformed], ls.wsConnected, []⟩ :: rest)
          = if ls.pump.isStreaming = true then
              ((loopIter ls ⟨true, [.text .malformed], ls.wsConnected, []⟩).2.1 ++
                (loopRun (loopIter ls ⟨true, [.text .malformed], ls.wsConnected, []⟩).1 rest).1,
               (loopIter ls ⟨true, [.text .malformed], ls.wsConnected, []⟩).2.2 ++
                (loopRun (loopIter ls ⟨true, [.text .malformed], ls.wsConnected, []⟩).1 rest).2)
            else ([], []) from rfl]
      rw [if_pos hstr, hiter]
      simp
    · have h1 := hstop ls (⟨true, [.text .malformed], ls.wsConnected, []⟩ :: rest)
        (by simpa using hstr)
      have h2 := hstop ls rest (by simpa using hstr)
      rw [h1, h2]

/-- C8: the encoder emits only characters of the 64-character standard
alphabet or `=`, its output length is always a multiple of four, and the
empty input encodes to the empty string. -/
theorem c8_encode_wellformed (data : List Nat) :
    (∀ c ∈ base64EncodeChars data, c ∈ b64chars ∨ c = '=') ∧
    (base64Encode data).length % 4 = 0 ∧
    base64Encode [] = "" :=
  ⟨fun c hc => encodeChars_mem data c hc, base64Encode_len data, by decide⟩

/-- C8 witness: evaluated at the one-byte input `[77]` and the character
`'T'` of its encoding. -/
theorem c8_encode_wellformed_witness :
    ('T' ∈ b64chars ∨ 'T' = '=') ∧
    (base64Encode [77]).length % 4 = 0 ∧
    base64Encode [] = "" :=
  ⟨(c8_encode_wellformed [77]).1 'T' (by decide),
   (c8_encode_wellformed [77]).2.1, (c8_encode_wellformed [77]).2.2⟩

/-- C9: `speechToSpeechStream` called while uninitialized, without WiFi, or
on a missing file invokes the stream callback exactly once with
`(filePath, nullptr, 0, isLastChunk = true)` and creates no streaming task
(hence sends nothing). -/
theorem c9_sts_stream_error_paths (s : StsService) (p : String) (w fe : Bool)
    (h : s.initialized = false ∨ w = false ∨ fe = false) :
    speechToSpeechStream s p w fe = ([⟨p, none, 0, true⟩], false) := by
  rcases h with h | h | h
  · simp [speechToSpeechStream, h]
  · by_cases hi : s.initialized = false <;> simp [speechToSpeechStream, hi, h]
  · by_cases hi : s.initialized = false
    · simp [speechToSpeechStream, hi]
    · by_cases hw : w = false <;> simp [speechToSpeechStream, hi, hw, h]

/-- C9 witness: the uninitialized service evaluated on a concrete path. -/
theorem c9_sts_stream_error_paths_witness :
    speechToSpeechStream ⟨"", "m", "v", false, false, false, false, false⟩ "/rec.wav" true true
      = ([⟨"/rec.wav", none, 0, true⟩], false) :=
  c9_sts_stream_error_paths ⟨"", "m", "v", false, false, false, false, false⟩ "/rec.wav"
    true true (Or.inl rfl)

lemma performTtsRequest_voice (s : TtsState) (text voice : String) (w m : Bool) :
    (performTtsRequest s text voice w m).state.voice = s.voice := by
  unfold performTtsRequest
  split_ifs <;> rfl

/-- C10: `textToSpeech` and `textToSpeechStream` with an explicit per-call
voice leave the stored default `_voice` unchanged on every path, including
the uninitialized, no-network and empty-text error paths (the success path
restores it after building the payload). -/
theorem c10_tts_voice_preserved (s : TtsState) (text voice : String) (w : Bool) :
    (textToSpeech s text voice w).state.voice = s.voice ∧
    (textToSpeechStream s text voice w).state.voice = s.voice :=
  ⟨performTtsRequest_voice s text voice w false, performTtsRequest_voice s text voice w true⟩

end Esp32Gpt

